import Mathlib

/-
  Verification development for the wasm globe renderer (src/src/lib.rs).

  The embedding translates the pure geometry of the crate (Peer::cartesian,
  Peer::new, Peer::rotate), the vertex-shader transform embedded as a GLSL
  string in start, the mousemove drag handler, the click hit test, the
  fly-to animation tick closure, and the setup/error control flow of start,
  compile_shader and link_program. Machine floats (f64/f32) are modelled as
  real numbers, so every floating-tolerance statement of the specification
  becomes an exact statement over the reals.
-/

noncomputable section

/-- Peer marker from src/src/lib.rs lines 9-14: lat and lon are the radian
angles fixed at construction, x and y cache the current projected 2D
coordinates. -/
@[ext]
structure Peer where
  lat : ℝ
  lon : ℝ
  x : ℝ
  y : ℝ

/-- Peer::cartesian (lib.rs lines 26-28): lat/lon in radians to a point of
the unit sphere, with the deliberate pi offset on the z term. -/
def Peer.cartesian (lat lon : ℝ) : ℝ × ℝ × ℝ :=
  (Real.cos lat * Real.sin lon, Real.sin lat,
    Real.cos lat * Real.cos (lon + Real.pi))

/-- Peer::new (lib.rs lines 17-24): converts degrees to radians, takes the
first two components of the cartesian triple as the initial projection. -/
def Peer.new (lat lon : ℝ) : Peer :=
  let latr := lat * Real.pi / 180
  let lonr := lon * Real.pi / 180
  { lat := latr, lon := lonr
    x := (Peer.cartesian latr lonr).1
    y := (Peer.cartesian latr lonr).2.1 }

/-- Peer::rotate (lib.rs lines 30-35): recomputes the cartesian triple from
the stored angles and overwrites x and y with the rotated projection; the
parameters lat and lon are the current view pitch and yaw. -/
def Peer.rotate (p : Peer) (lat lon : ℝ) : Peer :=
  let c := Peer.cartesian p.lat p.lon
  { p with
    x := Real.cos lon * c.1 - Real.sin lon * c.2.2
    y := Real.cos lat * c.2.1 + Real.sin lat * Real.cos lon * c.2.2
          + Real.sin lat * Real.sin lon * c.1 }

/-- degToRad from the vertex shader source (lib.rs lines 64-66). -/
def degToRad (v : ℝ) : ℝ := v * Real.pi / 180

/-- rotateY from the vertex shader (lib.rs lines 68-75). GLSL mat4 literals
are column major, so the matrix rows acting on (x, y, z) are
(c, 0, s), (0, 1, 0), (-s, 0, c). -/
def shaderRotY (r : ℝ) (v : ℝ × ℝ × ℝ) : ℝ × ℝ × ℝ :=
  (Real.cos r * v.1 + Real.sin r * v.2.2, v.2.1,
    -Real.sin r * v.1 + Real.cos r * v.2.2)

/-- rotateX from the vertex shader (lib.rs lines 77-84). Rows acting on
(x, y, z) are (1, 0, 0), (0, c, -s), (0, s, c). -/
def shaderRotX (r : ℝ) (v : ℝ × ℝ × ℝ) : ℝ × ℝ × ℝ :=
  (v.1, Real.cos r * v.2.1 - Real.sin r * v.2.2,
    Real.sin r * v.2.1 + Real.cos r * v.2.2)

/-- main of the vertex shader (lib.rs lines 86-95): pos = (lon, lat) in
degrees, angle = (pitch, yaw) in the unit of the rotation state; returns
the xyz of gl_Position (w is 1 and the hardware divide leaves xyz fixed). -/
def glVertex (posx posy a0 a1 : ℝ) : ℝ × ℝ × ℝ :=
  let lat := degToRad posy
  let lon := degToRad posx
  shaderRotX a0 (shaderRotY a1
    (Real.cos lat * Real.sin lon, Real.sin lat, Real.cos lat * Real.cos lon))

/-- Hit test of the click closure (lib.rs lines 248-249): the peer position
is mapped to pixels as (360 + x*360, 360 - y*360) and each axis distance to
the pointer is compared to 10 separately. -/
def clickHit (p : Peer) (cx cy : ℝ) : Prop :=
  |cx - (360 + p.x * 360)| < 10 ∧ |cy - (360 - p.y * 360)| < 10

/-- The click closure walks the peer list and spawns a fly-to animation for
every peer whose hit test passes (lib.rs lines 246-282); the interaction
state leaves Idle exactly when some peer is hit. -/
def startsFlyTo (peers : List Peer) (cx cy : ℝ) : Prop :=
  ∃ p ∈ peers, clickHit p cx cy

/-- The Stockholm peer of the demo list (lib.rs line 162). -/
def stockholm : Peer := Peer.new 59.334591 18.063240

/-- mousemove closure (lib.rs lines 216-229): when the mouse is pressed,
add movement_y/720 to the pitch and movement_x/720 to the yaw, then clamp
the pitch to [-1, 1]; otherwise the angle cell is untouched. -/
def mousemove (pressed : Bool) (angle : ℝ × ℝ) (movementX movementY : ℤ) :
    ℝ × ℝ :=
  if pressed then
    (min (max (angle.1 + (movementY : ℝ) / 720) (-1)) 1,
      angle.2 + (movementX : ℝ) / 720)
  else angle

/-- Deltas computed by the click closure on a hit (lib.rs line 251):
dlat = peer.lat - lat, dlon = peer.lon + lon, read from the angle cell. -/
def flyDeltas (peer : Peer) (angle : ℝ × ℝ) : ℝ × ℝ :=
  (peer.lat - angle.1, peer.lon + angle.2)

/-- State captured by the fly-to animation closure (lib.rs lines 255-280):
the step counter i, the mutable lat and lon accumulators, the shared angle
cell, and whether the self-rescheduling callback is still alive (the
Option closure cell f being Some). -/
@[ext]
structure FlyState where
  i : ℕ
  lat : ℝ
  lon : ℝ
  angle : ℝ × ℝ
  active : Bool

/-- State at animation start: i = 0, accumulators seeded from the angle
cell, callback scheduled. -/
def flyStart (lat0 lon0 : ℝ) : FlyState :=
  { i := 0, lat := lat0, lon := lon0, angle := (lat0, lon0), active := true }

/-- One run of the animation closure (lib.rs lines 260-276): if i > 50 the
angle cell is set to the accumulated lat/lon and the callback cell is
emptied, otherwise i is incremented, the accumulators advance by dlat/50
and -dlon/50, and a redraw plus reschedule happen. A tick of a dead
callback is a no-op. -/
def flyTick (dlat dlon : ℝ) (s : FlyState) : FlyState :=
  if s.active then
    if 50 < s.i then { s with angle := (s.lat, s.lon), active := false }
    else { s with i := s.i + 1, lat := s.lat + dlat / 50,
                  lon := s.lon - dlon / 50 }
  else s

/-- Diagnostic string of compile_shader (lib.rs line 313). -/
def msgUnknownShader : String := "Unknown error creating shader"

/-- Diagnostic string of link_program (lib.rs line 335). -/
def msgUnknownProgram : String := "Unknown error creating program object"

/-- Diagnostic string shared by compile_shader and link_program on failed
object creation (lib.rs lines 300 and 320). -/
def msgUnableCreate : String := "Unable to create shader object"

/-- Diagnostic string for a failed buffer creation (lib.rs line 117). -/
def msgBuffer : String := "failed to create buffer"

/-- Diagnostic string for a failed vertex array creation (lib.rs line 145). -/
def msgVao : String := "Could not create vertex array object"

/-- Outcome of running start: clean return, an Err value propagated to the
entry point by the question mark operator, or a Rust panic (an unwrap or
expect firing), which aborts without returning a value. -/
inductive SetupOutcome where
  | ok : SetupOutcome
  | err : String → SetupOutcome
  | panic : SetupOutcome

/-- True exactly on the propagated-error outcome. -/
def SetupOutcome.isErr : SetupOutcome → Bool
  | SetupOutcome.err _ => true
  | _ => false

/-- Environment responses consumed by start (lib.rs lines 46-158): whether
the canvas element exists, the result of get_context, whether each GL
object creation succeeds, each compile/link status, the info logs, and
whether the overlay canvas element exists. -/
structure GlEnv where
  canvasFound : Bool
  glContext : Except String (Option Unit)
  vertShaderCreated : Bool
  vertCompileOk : Bool
  vertLog : Option String
  fragShaderCreated : Bool
  fragCompileOk : Bool
  fragLog : Option String
  programCreated : Bool
  linkOk : Bool
  programLog : Option String
  bufferCreated : Bool
  vaoCreated : Bool
  peersCanvasFound : Bool
  ctx2d : Except String (Option Unit)

/-- compile_shader (lib.rs lines 297-315): Err on a failed create_shader,
Ok on COMPILE_STATUS true, otherwise Err carrying the info log (or the
fallback string when the log is absent). -/
def compile_shader (created ok : Bool) (log : Option String) :
    Except String Unit :=
  if created then
    if ok then Except.ok () else Except.error (log.getD msgUnknownShader)
  else Except.error msgUnableCreate

/-- link_program (lib.rs lines 317-337): same shape as compile_shader, on
LINK_STATUS and the program info log; the creation failure message is the
same reused shader string. -/
def link_program (created ok : Bool) (log : Option String) :
    Except String Unit :=
  if created then
    if ok then Except.ok () else Except.error (log.getD msgUnknownProgram)
  else Except.error msgUnableCreate

/-- Setup control flow of start (lib.rs lines 46-173): a missing canvas
element panics via unwrap, a get_context Err propagates via the question
mark, a get_context Ok(None) panics via unwrap, shader compile and program
link errors propagate, the buffer and vertex-array creations propagate
their ok_or strings, a missing overlay canvas panics, and the 2d context
repeats the get_context pattern. -/
def startup (env : GlEnv) : SetupOutcome :=
  if env.canvasFound then
    match env.glContext with
    | Except.error e => SetupOutcome.err e
    | Except.ok none => SetupOutcome.panic
    | Except.ok (some _) =>
      match compile_shader env.vertShaderCreated env.vertCompileOk env.vertLog with
      | Except.error e => SetupOutcome.err e
      | Except.ok _ =>
        match compile_shader env.fragShaderCreated env.fragCompileOk env.fragLog with
        | Except.error e => SetupOutcome.err e
        | Except.ok _ =>
          match link_program env.programCreated env.linkOk env.programLog with
          | Except.error e => SetupOutcome.err e
          | Except.ok _ =>
            if env.bufferCreated then
              if env.vaoCreated then
                if env.peersCanvasFound then
                  match env.ctx2d with
                  | Except.error e => SetupOutcome.err e
                  | Except.ok none => SetupOutcome.panic
                  | Except.ok (some _) => SetupOutcome.ok
                else SetupOutcome.panic
              else SetupOutcome.err msgVao
            else SetupOutcome.err msgBuffer
  else SetupOutcome.panic

/-- A fully healthy environment except that the canvas element is absent. -/
def envMissingCanvas : GlEnv :=
  { canvasFound := false, glContext := Except.ok (some ())
    vertShaderCreated := true, vertCompileOk := true, vertLog := none
    fragShaderCreated := true, fragCompileOk := true, fragLog := none
    programCreated := true, linkOk := true, programLog := none
    bufferCreated := true, vaoCreated := true, peersCanvasFound := true
    ctx2d := Except.ok (some ()) }

/-- Info log content used by the concrete failing-compile environment. -/
def vertLogText : String := "vertex shader failed to compile"

/-- Info log content used by the concrete failing-link environment. -/
def progLogText : String := "program failed to link"

/-- Healthy environment whose vertex shader fails to compile. -/
def envVertFail : GlEnv :=
  { envMissingCanvas with
    canvasFound := true
    vertCompileOk := false
    vertLog := some vertLogText }

/-- Healthy environment whose program fails to link. -/
def envLinkFail : GlEnv :=
  { envMissingCanvas with
    canvasFound := true
    linkOk := false
    programLog := some progLogText }

/- ------------------------------------------------------------------ -/
/- Helper lemmas -/
/- ------------------------------------------------------------------ -/

lemma flyTick_iter_le (dlat dlon lat0 lon0 : ℝ) :
    ∀ n : ℕ, n ≤ 51 →
      (flyTick dlat dlon)^[n] (flyStart lat0 lon0) =
        { i := n, lat := lat0 + n * (dlat / 50), lon := lon0 - n * (dlon / 50),
          angle := (lat0, lon0), active := true } := by
  intro n
  induction n with
  | zero =>
    intro _
    simp [flyStart]
  | succ k ih =>
    intro hk
    rw [Function.iterate_succ_apply', ih (by omega)]
    have hki : ¬ (50 < k) := by omega
    simp only [flyTick, if_pos rfl, hki, if_false, if_true]
    refine FlyState.ext rfl ?_ ?_ rfl rfl <;> push_cast <;> ring

lemma flyTick_run (dlat dlon lat0 lon0 : ℝ) :
    (flyTick dlat dlon)^[52] (flyStart lat0 lon0) =
      { i := 51, lat := lat0 + 51 * (dlat / 50), lon := lon0 - 51 * (dlon / 50),
        angle := (lat0 + 51 * (dlat / 50), lon0 - 51 * (dlon / 50)),
        active := false } := by
  rw [show (52 : ℕ) = 51 + 1 from rfl, Function.iterate_succ_apply',
    flyTick_iter_le dlat dlon lat0 lon0 51 (by norm_num)]
  have h : (50 : ℕ) < 51 := by norm_num
  simp only [flyTick, if_pos rfl, h, if_true]
  refine FlyState.ext rfl ?_ ?_ ?_ rfl <;> push_cast <;> norm_num

/- ------------------------------------------------------------------ -/
/- Claim theorems -/
/- ------------------------------------------------------------------ -/

/-- Claim C1: for every source latitude/longitude in degrees and every
pitch/yaw, the 2D-side projection of Peer::rotate agrees exactly, in the
shared normalized frame of the unit-radius view, with the x and y of the
gl_Position the vertex shader computes by cartesian conversion followed by
rotateX(pitch) * rotateY(yaw) on the same lon/lat. -/
theorem rotate_matches_shader (latDeg lonDeg pitch yaw : ℝ) :
    ((Peer.new latDeg lonDeg).rotate pitch yaw).x
        = (glVertex lonDeg latDeg pitch yaw).1 ∧
    ((Peer.new latDeg lonDeg).rotate pitch yaw).y
        = (glVertex lonDeg latDeg pitch yaw).2.1 := by
  simp only [Peer.new, Peer.rotate, Peer.cartesian, glVertex, degToRad,
    shaderRotX, shaderRotY, Real.cos_add, Real.cos_pi, Real.sin_pi]
  constructor <;> ring

/-- Claim C4: Peer::cartesian returns exactly the triple
(cos(lat)*sin(lon), sin(lat), cos(lat)*cos(lon + pi)) with the pi offset on
the z component, and the triple lies exactly on the unit sphere. -/
theorem cartesian_formula_unit_sphere (lat lon : ℝ) :
    Peer.cartesian lat lon
        = (Real.cos lat * Real.sin lon, Real.sin lat,
            Real.cos lat * Real.cos (lon + Real.pi)) ∧
    (Peer.cartesian lat lon).1 ^ 2 + (Peer.cartesian lat lon).2.1 ^ 2
        + (Peer.cartesian lat lon).2.2 ^ 2 = 1 := by
  refine ⟨rfl, ?_⟩
  simp only [Peer.cartesian, Real.cos_add, Real.cos_pi, Real.sin_pi]
  linear_combination (Real.cos lat) ^ 2 * Real.sin_sq_add_cos_sq lon
    + Real.sin_sq_add_cos_sq lat

/-- Claim C5: Peer::rotate applied to the cartesian point (x, y, z) of the
stored angles sets exactly x to cos(yaw)*x - sin(yaw)*z and y to
cos(pitch)*y + sin(pitch)*cos(yaw)*z + sin(pitch)*sin(yaw)*x, discarding
depth. -/
theorem rotate_formula (p : Peer) (pitch yaw : ℝ) :
    (p.rotate pitch yaw).x
        = Real.cos yaw * (Peer.cartesian p.lat p.lon).1
            - Real.sin yaw * (Peer.cartesian p.lat p.lon).2.2 ∧
    (p.rotate pitch yaw).y
        = Real.cos pitch * (Peer.cartesian p.lat p.lon).2.1
            + Real.sin pitch * Real.cos yaw * (Peer.cartesian p.lat p.lon).2.2
            + Real.sin pitch * Real.sin yaw * (Peer.cartesian p.lat p.lon).1 :=
  ⟨rfl, rfl⟩

/-- Claim C7: re-projection is idempotent; rotating twice with the same
pitch and yaw equals rotating once, because rotate recomputes x and y from
the unchanged lat and lon. -/
theorem rotate_idempotent (p : Peer) (pitch yaw : ℝ) :
    (p.rotate pitch yaw).rotate pitch yaw = p.rotate pitch yaw := rfl

/-- Claim C8: identity rotation is a no-op; rotate with pitch = yaw = 0
returns the first two cartesian components unchanged, and a freshly
constructed peer equals the result of re-projecting it at (0, 0). -/
theorem rotate_identity (lat lon : ℝ) :
    (Peer.new lat lon).rotate 0 0 = Peer.new lat lon ∧
    ∀ p : Peer,
      (p.rotate 0 0).x = (Peer.cartesian p.lat p.lon).1 ∧
      (p.rotate 0 0).y = (Peer.cartesian p.lat p.lon).2.1 := by
  have hgen : ∀ p : Peer,
      (p.rotate 0 0).x = (Peer.cartesian p.lat p.lon).1 ∧
      (p.rotate 0 0).y = (Peer.cartesian p.lat p.lon).2.1 := by
    intro p
    constructor <;>
      simp [Peer.rotate]
  refine ⟨?_, hgen⟩
  have h := hgen (Peer.new lat lon)
  exact Peer.ext rfl rfl h.1 h.2

/-- Claim C10: Peer::rotate mutates only x and y; lat and lon are unchanged
by one call and by any sequence of calls, so they stay equal to the radian
values fixed at construction. -/
theorem rotate_preserves_angles (p : Peer) (pitch yaw : ℝ) :
    (p.rotate pitch yaw).lat = p.lat ∧ (p.rotate pitch yaw).lon = p.lon ∧
    ∀ us : List (ℝ × ℝ),
      (us.foldl (fun q u => q.rotate u.1 u.2) p).lat = p.lat ∧
      (us.foldl (fun q u => q.rotate u.1 u.2) p).lon = p.lon := by
  refine ⟨rfl, rfl, ?_⟩
  intro us
  induction us generalizing p with
  | nil => exact ⟨rfl, rfl⟩
  | cons u us ih =>
    simpa using ih (p.rotate u.1 u.2)

/-- Claim C2 counterexample: flying from rotation (0, 0) toward target
(50, 0) (so dlat = 50, dlon = 0, each step adds 1), after exactly 51 ticks
the callback is still scheduled (not Idle) and the angle cell still holds
(0, 0), not the target; even after the 52nd tick the committed pitch is 51,
not the target 50. -/
theorem flyto_51_ticks_cex :
    ((flyTick 50 0)^[51] (flyStart 0 0)).active = true ∧
    ((flyTick 50 0)^[51] (flyStart 0 0)).angle ≠ ((50 : ℝ), (0 : ℝ)) ∧
    ((flyTick 50 0)^[52] (flyStart 0 0)).angle.1 ≠ 50 := by
  have h51 := flyTick_iter_le 50 0 0 0 51 (by norm_num)
  have h52 := flyTick_run 50 0 0 0
  refine ⟨?_, ?_, ?_⟩
  · rw [h51]
  · rw [h51]
    simp [Prod.ext_iff]
  · rw [h52]
    norm_num

/-- Claim C2 as amended: the animation closure performs 51 incrementing
steps (i = 0 through 50) and only its 52nd run empties the callback cell;
that final run writes the accumulated values
(lat0 + 51*(dlat/50), lon0 - 51*(dlon/50)) into the angle cell, which
overshoots the intended 50-step target by one extra step of the delta and
performs no snap to the target. -/
theorem flyto_full_run (dlat dlon lat0 lon0 : ℝ) :
    (flyTick dlat dlon)^[52] (flyStart lat0 lon0) =
      { i := 51, lat := lat0 + 51 * (dlat / 50), lon := lon0 - 51 * (dlon / 50),
        angle := (lat0 + 51 * (dlat / 50), lon0 - 51 * (dlon / 50)),
        active := false } :=
  flyTick_run dlat dlon lat0 lon0

/-- Claim C3 counterexample: the Stockholm peer is clickable at identity
rotation (its own mapped pixel position passes the hit test), and the
fly-to animation it starts from rotation (0, 0) commits a pitch strictly
greater than 1 to the angle cell, leaving the clamp interval [-1, 1]. -/
theorem flyto_pitch_exceeds_clamp :
    clickHit stockholm (360 + stockholm.x * 360) (360 - stockholm.y * 360) ∧
    1 < ((flyTick (flyDeltas stockholm (0, 0)).1
          (flyDeltas stockholm (0, 0)).2)^[52] (flyStart 0 0)).angle.1 := by
  constructor
  · constructor <;> norm_num
  · rw [flyTick_run]
    show (1 : ℝ) < 0 + 51 * ((flyDeltas stockholm (0, 0)).1 / 50)
    have hd : (flyDeltas stockholm (0, 0)).1 = 59.334591 * Real.pi / 180 - 0 :=
      rfl
    rw [hd]
    have hpi := Real.pi_gt_d6
    nlinarith

/-- Claim C3 as amended: every drag-delta update leaves the pitch inside
[-1, 1] (the mousemove handler clamps it, whatever the pointer delta), but
the fly-to animation steps do not clamp the pitch and can move the
committed rotation outside the interval. -/
theorem drag_clamps_pitch (a : ℝ × ℝ) (dx dy : ℤ) :
    -1 ≤ (mousemove true a dx dy).1 ∧ (mousemove true a dx dy).1 ≤ 1 := by
  have h : mousemove true a dx dy =
      (min (max (a.1 + (dy : ℝ) / 720) (-1)) 1, a.2 + (dx : ℝ) / 720) := by
    simp [mousemove]
  rw [h]
  exact ⟨le_min (le_max_right _ _) (by norm_num), min_le_right _ _⟩

/-- Claim C6: the click hit test succeeds exactly when the pointer is
within 10 pixels of the peer in Chebyshev distance under the pixel map
(360 + x*360, 360 - y*360); in particular a click within 10 pixels of the
Stockholm peer under identity rotation starts the fly-to animation and a
click 50 pixels away leaves the state unchanged. -/
theorem click_hit_chebyshev :
    (∀ (p : Peer) (cx cy : ℝ),
      clickHit p cx cy ↔
        max |cx - (360 + p.x * 360)| |cy - (360 - p.y * 360)| < 10) ∧
    (∀ cx cy : ℝ,
      max |cx - (360 + stockholm.x * 360)| |cy - (360 - stockholm.y * 360)|
          < 10 →
        startsFlyTo [stockholm] cx cy) ∧
    (∀ cx cy : ℝ,
      50 ≤ max |cx - (360 + stockholm.x * 360)|
              |cy - (360 - stockholm.y * 360)| →
        ¬ startsFlyTo [stockholm] cx cy) := by
  have hiff : ∀ (p : Peer) (cx cy : ℝ),
      clickHit p cx cy ↔
        max |cx - (360 + p.x * 360)| |cy - (360 - p.y * 360)| < 10 := by
    intro p cx cy
    unfold clickHit
    exact max_lt_iff.symm
  refine ⟨hiff, ?_, ?_⟩
  · intro cx cy h
    exact ⟨stockholm, List.mem_singleton_self _, (hiff stockholm cx cy).mpr h⟩
  · intro cx cy h hcon
    obtain ⟨p, hp, hhit⟩ := hcon
    rw [List.mem_singleton] at hp
    subst hp
    have := (hiff _ cx cy).mp hhit
    linarith [le_trans h (le_of_lt this)]

/-- Witness for claim C6: a click exactly at the mapped pixel position of
the Stockholm peer starts the animation, and a click 50 pixels to the
right does not. -/
theorem click_hit_chebyshev_witness :
    startsFlyTo [stockholm] (360 + stockholm.x * 360)
      (360 - stockholm.y * 360) ∧
    ¬ startsFlyTo [stockholm] (360 + stockholm.x * 360 + 50)
      (360 - stockholm.y * 360) := by
  refine ⟨click_hit_chebyshev.2.1 _ _ ?_, click_hit_chebyshev.2.2 _ _ ?_⟩
  · norm_num
  · rw [show (360 + stockholm.x * 360 + 50 - (360 + stockholm.x * 360) : ℝ)
          = 50 by ring]
    norm_num

/-- Claim C9 counterexample: with every other collaborator healthy, a
missing canvas element makes start panic through unwrap; the failure does
not reach the entry point as an error value. -/
theorem setup_missing_canvas_panics :
    startup envMissingCanvas = SetupOutcome.panic ∧
    (startup envMissingCanvas).isErr = false := ⟨rfl, rfl⟩

/-- Claim C9 as amended: shader compile failures, program link failures and
get_context errors propagate as a single error value (carrying the shader
or program info log) to the entry point, but a missing canvas element or a
null rendering context panics through unwrap instead of propagating. -/
theorem setup_error_flow (env : GlEnv) :
    (env.canvasFound = false → startup env = SetupOutcome.panic) ∧
    (env.canvasFound = true → env.glContext = Except.ok none →
      startup env = SetupOutcome.panic) ∧
    (∀ e : String, env.canvasFound = true → env.glContext = Except.error e →
      startup env = SetupOutcome.err e) ∧
    (env.canvasFound = true → env.glContext = Except.ok (some ()) →
      env.vertShaderCreated = true → env.vertCompileOk = false →
      startup env = SetupOutcome.err (env.vertLog.getD msgUnknownShader)) ∧
    (env.canvasFound = true → env.glContext = Except.ok (some ()) →
      env.vertShaderCreated = true → env.vertCompileOk = true →
      env.fragShaderCreated = true → env.fragCompileOk = false →
      startup env = SetupOutcome.err (env.fragLog.getD msgUnknownShader)) ∧
    (env.canvasFound = true → env.glContext = Except.ok (some ()) →
      env.vertShaderCreated = true → env.vertCompileOk = true →
      env.fragShaderCreated = true → env.fragCompileOk = true →
      env.programCreated = true → env.linkOk = false →
      startup env = SetupOutcome.err (env.programLog.getD msgUnknownProgram))
    := by
  refine ⟨?_, ?_, ?_, ?_, ?_, ?_⟩ <;> intros <;>
    simp_all [startup, compile_shader, link_program]

/-- Witness for the amended claim C9: a concrete failing vertex-shader
compile and a concrete failing link each surface their info log as the
propagated error. -/
theorem setup_error_flow_witness :
    startup envVertFail = SetupOutcome.err vertLogText ∧
    startup envLinkFail = SetupOutcome.err progLogText := by
  constructor
  · exact (setup_error_flow envVertFail).2.2.2.1 rfl rfl rfl rfl
  · exact (setup_error_flow envLinkFail).2.2.2.2.2 rfl rfl rfl rfl rfl rfl
      rfl rfl
